import Mathlib

/-!
Verification of the mystery-agents pipeline (juanje/mystry-agents).

This file gives a shallow embedding of the parts of the repository that the
spec's testable properties talk about:

* the LangGraph workflow of `src/mystery_agents/graph/workflow.py`
  (node wrappers `v1_world_validator_node` / `v2_game_logic_validator_node`,
  routing functions `should_retry_world_validation` / `should_retry_validation`,
  and the static graph built by `create_workflow`),
* the retry-counter fields of `GameState` from `src/mystery_agents/models/state.py`,
* the per-item image retry loop of
  `src/mystery_agents/agents/a3_5_character_images.py`
  (`CharacterImageAgent._generate_character_image`) and the batch mapping of
  `_generate_all_images`,
* the semaphore discipline of `_generate_all_images` /
  `_generate_character_image_with_semaphore` as a small-step interleaving model,
* the module-level names of `src/mystery_agents/utils/constants.py`, the
  names requested from constants by `a9_packaging.py`, and the field
  list of `GameConfig`.

The LLM-backed agents are opaque collaborators in the source; runs of the
pipeline are therefore parametrised by the functions those agents compute.
-/

namespace MysteryAgents

/-! ### Data model (`src/mystery_agents/models/state.py`)

Only the fields consulted by the workflow's control flow are modelled
concretely; all remaining `GameState` fields (world, characters, crime, ...)
are bundled into an opaque `data` component of type `α`, since no routing
decision reads them. Python `int` fields are modelled as `Int`. -/

/-- `WorldValidation` (state.py): report produced by the V1 world validator. -/
structure WorldValidation where
  is_coherent : Bool
  issues : List String
  suggestions : List String
deriving DecidableEq

/-- `ValidationIssue` (state.py): one structured issue of a V2 report.
The `type` literal tag is kept as a plain string. -/
structure ValidationIssue where
  type : String
  description : String
deriving DecidableEq

/-- `ValidationReport` (state.py): report produced by the V2 game-logic validator. -/
structure ValidationReport where
  is_consistent : Bool
  issues : List ValidationIssue
  suggested_fixes : List String
deriving DecidableEq

/-- The control-flow-relevant projection of `GameState` (state.py).
`data` stands for every field not consulted by the workflow's routing.
Defaults mirror state.py: `retry_count = 0`, `max_retries = 3`,
`world_retry_count = 0`, `max_world_retries = 2`. -/
structure GameState (α : Type) where
  data : α
  world_validation : Option WorldValidation := none
  validation : Option ValidationReport := none
  retry_count : Int := 0
  max_retries : Int := 3
  world_retry_count : Int := 0
  max_world_retries : Int := 2
deriving DecidableEq

/-! ### Workflow graph (`src/mystery_agents/graph/workflow.py`) -/

/-- The named nodes added by `create_workflow` (workflow.py). -/
inductive Node
  | a1_config
  | a2_world
  | v1_world_validator
  | a2_5_visual_style
  | a3_characters
  | a3_5_character_images
  | a4_relationships
  | a5_crime
  | a6_timeline
  | a7_killer
  | v2_game_logic_validator
  | a8_content
  | a8_5_host_images
  | a9_packaging
deriving DecidableEq

/-- The three-way routing decision of the conditional edges (workflow.py),
the Python `Literal["pass", "retry", "fail"]`. -/
inductive Route
  | pass
  | retry
  | fail
deriving DecidableEq

/-- `should_retry_world_validation` (workflow.py lines 230-251):
fail when the report slot is unset, pass when coherent, retry while
`world_retry_count < max_world_retries`, otherwise fail. -/
def should_retry_world_validation {α : Type} (state : GameState α) : Route :=
  match state.world_validation with
  | none => .fail
  | some wv =>
    if wv.is_coherent then .pass
    else if state.world_retry_count < state.max_world_retries then .retry
    else .fail

/-- `should_retry_validation` (workflow.py lines 254-275). -/
def should_retry_validation {α : Type} (state : GameState α) : Route :=
  match state.validation with
  | none => .fail
  | some v =>
    if v.is_consistent then .pass
    else if state.retry_count < state.max_retries then .retry
    else .fail

/-- `v1_world_validator_node` (workflow.py lines 33-56): run the validator
agent, set `world_retry_count` to the incoming value plus one, and reset it to
zero when a report is present and coherent.  The agent call
(`WorldValidatorAgent.run`) is an opaque parameter. -/
def v1_world_validator_node {α : Type} (agent : GameState α → GameState α)
    (state : GameState α) : GameState α :=
  let result := agent state
  let result := { result with world_retry_count := state.world_retry_count + 1 }
  match result.world_validation with
  | some wv => if wv.is_coherent then { result with world_retry_count := 0 } else result
  | none => result

/-- `v2_game_logic_validator_node` (workflow.py lines 161-182), same shape as
the V1 wrapper but over `retry_count` / `validation.is_consistent`. -/
def v2_game_logic_validator_node {α : Type} (agent : GameState α → GameState α)
    (state : GameState α) : GameState α :=
  let result := agent state
  let result := { result with retry_count := state.retry_count + 1 }
  match result.validation with
  | some v => if v.is_consistent then { result with retry_count := 0 } else result
  | none => result

/-- Execute one node. The two validator nodes use their wrappers; every other
node is the corresponding agent applied directly (workflow.py node functions
are `agent.run` plus logging). -/
def applyNode {α : Type} (agents : Node → GameState α → GameState α)
    (n : Node) (s : GameState α) : GameState α :=
  match n with
  | .v1_world_validator => v1_world_validator_node (agents .v1_world_validator) s
  | .v2_game_logic_validator => v2_game_logic_validator_node (agents .v2_game_logic_validator) s
  | n => agents n s

/-- The static edges added by `create_workflow` (workflow.py lines 278-346).
`none` is the END node: reached from a validator on a `fail` route and from
`a9_packaging` on completion. -/
def nextNode {α : Type} (n : Node) (s : GameState α) : Option Node :=
  match n with
  | .a1_config => some .a2_world
  | .a2_world => some .v1_world_validator
  | .v1_world_validator =>
    match should_retry_world_validation s with
    | .pass => some .a2_5_visual_style
    | .retry => some .a2_world
    | .fail => none
  | .a2_5_visual_style => some .a3_characters
  | .a3_characters => some .a3_5_character_images
  | .a3_5_character_images => some .a4_relationships
  | .a4_relationships => some .a5_crime
  | .a5_crime => some .a6_timeline
  | .a6_timeline => some .a7_killer
  | .a7_killer => some .v2_game_logic_validator
  | .v2_game_logic_validator =>
    match should_retry_validation s with
    | .pass => some .a8_content
    | .retry => some .a6_timeline
    | .fail => none
  | .a8_content => some .a8_5_host_images
  | .a8_5_host_images => some .a9_packaging
  | .a9_packaging => none

/-- Terminal outcome of a run. `success` means END was reached through
`a9_packaging`; `failed` means END was reached through a validator's `fail`
edge, in which case `cli.py` finds a not-acceptable report in the final state
and exits with code 1. `outOfFuel` models hitting the LangGraph recursion
limit. -/
inductive Outcome
  | success
  | failed
  | outOfFuel
deriving DecidableEq

/-- Result of running the graph: the list of executed nodes paired with the
state right after each execution, the final state, and the outcome. -/
structure RunResult (α : Type) where
  trace : List (Node × GameState α)
  final : GameState α
  outcome : Outcome
deriving DecidableEq

/-- Execute the workflow graph from node `n`, bounded by `fuel` node
executions, mirroring LangGraph's `recursion_limit` bound on super-steps. -/
def run {α : Type} (agents : Node → GameState α → GameState α) :
    Nat → Node → GameState α → RunResult α
  | 0, _, s => ⟨[], s, .outOfFuel⟩
  | fuel + 1, n, s =>
    let s' := applyNode agents n s
    match nextNode n s' with
    | none => ⟨[(n, s')], s', if n = .a9_packaging then .success else .failed⟩
    | some m =>
      let r := run agents fuel m s'
      ⟨(n, s') :: r.trace, r.final, r.outcome⟩

/-- `DEFAULT_RECURSION_LIMIT` (constants.py): the recursion limit passed to
`workflow.stream` by `cli.py`. -/
def DEFAULT_RECURSION_LIMIT : Nat := 50

/-- A full pipeline run: `START -> a1_config` is the entry edge of
`create_workflow`. -/
def runWorkflow {α : Type} (agents : Node → GameState α → GameState α)
    (fuel : Nat) (s : GameState α) : RunResult α :=
  run agents fuel .a1_config s

/-- A family of agents in which every generation agent writes only the opaque
`data` component, and each validator agent stores a fresh report determined by
the attempt index (its incoming consecutive-failure counter), exactly as
`WorldValidatorAgent.run` sets only `state.world_validation` and
`GameLogicValidatorAgent.run` sets only `state.validation`. -/
def mkAgents {α : Type} (f : Node → GameState α → α)
    (wrep : Int → WorldValidation) (vrep : Int → ValidationReport) :
    Node → GameState α → GameState α
  | .v1_world_validator, s =>
    { s with data := f .v1_world_validator s, world_validation := some (wrep s.world_retry_count) }
  | .v2_game_logic_validator, s =>
    { s with data := f .v2_game_logic_validator s, validation := some (vrep s.retry_count) }
  | n, s => { s with data := f n s }

/-- C10: a missing validation report routes to `fail` immediately, for both
loops, whatever the retry counters hold. -/
theorem c10_missing_report_fails {α : Type}
    (agentW agentV : GameState α → GameState α) (s : GameState α) :
    ((agentW s).world_validation = none →
      should_retry_world_validation (v1_world_validator_node agentW s) = .fail) ∧
    ((agentV s).validation = none →
      should_retry_validation (v2_game_logic_validator_node agentV s) = .fail) := by
  constructor
  · intro h
    simp [v1_world_validator_node, should_retry_world_validation, h]
  · intro h
    simp [v2_game_logic_validator_node, should_retry_validation, h]

/-- Witness for C10 at a concrete state whose validator agents leave the
report slots unset, with a nonzero retry budget still available. -/
theorem c10_missing_report_fails_witness :
    ((fun s => s) { data := (), retry_count := 0, world_retry_count := 0 } : GameState Unit).world_validation = none ∧
    should_retry_world_validation
      (v1_world_validator_node (fun s => s)
        ({ data := (), retry_count := 0, world_retry_count := 0 } : GameState Unit)) = .fail := by
  refine ⟨by decide, ?_⟩
  exact (c10_missing_report_fails (fun s => s) (fun s => s)
    ({ data := (), retry_count := 0, world_retry_count := 0 } : GameState Unit)).1 (by decide)

/-- A trace element records a FAIL routing decision when it is a validator
node whose post-state routes to `fail` (the conditional edges of
`create_workflow` read the state produced by the validator node). -/
def failDecisionAt {α : Type} (x : Node × GameState α) : Prop :=
  (x.1 = .v1_world_validator ∧ should_retry_world_validation x.2 = .fail) ∨
  (x.1 = .v2_game_logic_validator ∧ should_retry_validation x.2 = .fail)

instance {α : Type} [DecidableEq α] (x : Node × GameState α) :
    Decidable (failDecisionAt x) := by
  unfold failDecisionAt
  infer_instance

/-- Auxiliary induction for C3: from any start node, if some executed
validator's post-state routes to `fail`, the run ends in `failed` and
`a9_packaging` never appears in the trace. -/
theorem run_fail_decision_aux {α : Type} (agents : Node → GameState α → GameState α) :
    ∀ (fuel : Nat) (n : Node) (s : GameState α) (x : Node × GameState α),
      x ∈ (run agents fuel n s).trace → failDecisionAt x →
      (run agents fuel n s).outcome = .failed ∧
        ∀ y ∈ (run agents fuel n s).trace, y.1 ≠ .a9_packaging := by
  intro fuel
  induction fuel with
  | zero =>
    intro n s x hx _
    simp [run] at hx
  | succ fuel ih =>
    intro n s x hx hfail
    cases hn : nextNode n (applyNode agents n s) with
    | none =>
      simp only [run, hn] at hx ⊢
      simp only [List.mem_singleton] at hx
      subst hx
      rcases hfail with ⟨h1, _⟩ | ⟨h1, _⟩ <;>
        simp_all
    | some m =>
      simp only [run, hn] at hx ⊢
      rcases List.mem_cons.mp hx with hx | hx
      · exfalso
        subst hx
        rcases hfail with ⟨h1, h2⟩ | ⟨h1, h2⟩
        · have h1' : n = Node.v1_world_validator := h1
          have h2' : should_retry_world_validation (applyNode agents n s) = .fail := h2
          subst h1'
          simp [nextNode, h2'] at hn
        · have h1' : n = Node.v2_game_logic_validator := h1
          have h2' : should_retry_validation (applyNode agents n s) = .fail := h2
          subst h1'
          simp [nextNode, h2'] at hn
      · have hrec := ih m (applyNode agents n s) x hx hfail
        refine ⟨hrec.1, ?_⟩
        intro y hy
        rcases List.mem_cons.mp hy with hy | hy
        · subst hy
          intro hcon
          have hcon' : n = Node.a9_packaging := hcon
          rw [hcon'] at hn
          simp [nextNode] at hn
        · exact hrec.2 y hy

/-- C3: in every run in which either validation loop's routing decision is
FAIL, the pipeline terminates with the non-success outcome and the
`a9_packaging` stage never executes. -/
theorem c3_fail_terminates_without_packaging {α : Type}
    (agents : Node → GameState α → GameState α) (fuel : Nat) (s₀ : GameState α)
    (x : Node × GameState α)
    (hx : x ∈ (runWorkflow agents fuel s₀).trace) (hfail : failDecisionAt x) :
    (runWorkflow agents fuel s₀).outcome = .failed ∧
      ∀ y ∈ (runWorkflow agents fuel s₀).trace, y.1 ≠ .a9_packaging :=
  run_fail_decision_aux agents fuel .a1_config s₀ x hx hfail

/-- Witness for C3: a concrete run whose world validator never finds the
world coherent; the second V1 execution routes to `fail`, the outcome is
`failed`, and packaging never appears in the trace. -/
theorem c3_fail_terminates_without_packaging_witness :
    ((Node.v1_world_validator,
        ({ data := (), world_validation := some ⟨false, ["anachronism"], []⟩,
           validation := none, retry_count := 0, max_retries := 3,
           world_retry_count := 2, max_world_retries := 2 } : GameState Unit)) ∈
      (runWorkflow
        (mkAgents (fun _ _ => ()) (fun _ => ⟨false, ["anachronism"], []⟩)
          (fun _ => ⟨true, [], []⟩))
        50 { data := () }).trace ∧
      failDecisionAt (α := Unit) (Node.v1_world_validator,
        { data := (), world_validation := some ⟨false, ["anachronism"], []⟩,
          validation := none, retry_count := 0, max_retries := 3,
          world_retry_count := 2, max_world_retries := 2 })) ∧
    ((runWorkflow
        (mkAgents (fun _ _ => ()) (fun _ => ⟨false, ["anachronism"], []⟩)
          (fun _ => ⟨true, [], []⟩))
        50 ({ data := () } : GameState Unit)).outcome = .failed ∧
      ∀ y ∈ (runWorkflow
        (mkAgents (fun _ _ => ()) (fun _ => ⟨false, ["anachronism"], []⟩)
          (fun _ => ⟨true, [], []⟩))
        50 ({ data := () } : GameState Unit)).trace, y.1 ≠ .a9_packaging) :=
  ⟨⟨by decide, by decide⟩,
    c3_fail_terminates_without_packaging
      (mkAgents (fun _ _ => ()) (fun _ => ⟨false, ["anachronism"], []⟩)
        (fun _ => ⟨true, [], []⟩))
      50 { data := () }
      (Node.v1_world_validator,
        { data := (), world_validation := some ⟨false, ["anachronism"], []⟩,
          validation := none, retry_count := 0, max_retries := 3,
          world_retry_count := 2, max_world_retries := 2 })
      (by decide) (by decide)⟩

/-- C5: with both retry counters at zero and both validators acceptable on
their first attempt, the pipeline visits each stage exactly once, in the
static order of `create_workflow`, ends in success, and both loops' counters
end at zero. -/
theorem c5_single_pass_visits_each_stage_once {α : Type}
    (f : Node → GameState α → α) (wrep : Int → WorldValidation)
    (vrep : Int → ValidationReport) (s₀ : GameState α)
    (h0 : s₀.retry_count = 0) (h0w : s₀.world_retry_count = 0)
    (hw : (wrep 0).is_coherent = true) (hv : (vrep 0).is_consistent = true) :
    (runWorkflow (mkAgents f wrep vrep) DEFAULT_RECURSION_LIMIT s₀).trace.map Prod.fst =
      [.a1_config, .a2_world, .v1_world_validator, .a2_5_visual_style, .a3_characters,
        .a3_5_character_images, .a4_relationships, .a5_crime, .a6_timeline, .a7_killer,
        .v2_game_logic_validator, .a8_content, .a8_5_host_images, .a9_packaging] ∧
    (runWorkflow (mkAgents f wrep vrep) DEFAULT_RECURSION_LIMIT s₀).outcome = .success ∧
    (runWorkflow (mkAgents f wrep vrep) DEFAULT_RECURSION_LIMIT s₀).final.retry_count = 0 ∧
    (runWorkflow (mkAgents f wrep vrep) DEFAULT_RECURSION_LIMIT s₀).final.world_retry_count = 0 := by
  simp [runWorkflow, DEFAULT_RECURSION_LIMIT, run, applyNode, nextNode, mkAgents,
    v1_world_validator_node, v2_game_logic_validator_node,
    should_retry_world_validation, should_retry_validation, h0, h0w, hw, hv]

/-- Witness for C5 at a concrete initial state with trivially passing
validators. -/
theorem c5_single_pass_visits_each_stage_once_witness :
    (({ data := () } : GameState Unit).retry_count = 0 ∧
      ({ data := () } : GameState Unit).world_retry_count = 0 ∧
      ((fun _ => ⟨true, [], []⟩ : Int → WorldValidation) 0).is_coherent = true ∧
      ((fun _ => ⟨true, [], []⟩ : Int → ValidationReport) 0).is_consistent = true) ∧
    (runWorkflow
        (mkAgents (fun _ _ => ()) (fun _ => ⟨true, [], []⟩) (fun _ => ⟨true, [], []⟩))
        DEFAULT_RECURSION_LIMIT ({ data := () } : GameState Unit)).trace.map Prod.fst =
      [.a1_config, .a2_world, .v1_world_validator, .a2_5_visual_style, .a3_characters,
        .a3_5_character_images, .a4_relationships, .a5_crime, .a6_timeline, .a7_killer,
        .v2_game_logic_validator, .a8_content, .a8_5_host_images, .a9_packaging] :=
  ⟨⟨rfl, rfl, rfl, rfl⟩,
    (c5_single_pass_visits_each_stage_once (fun _ _ => ())
      (fun _ => ⟨true, [], []⟩) (fun _ => ⟨true, [], []⟩)
      { data := () } rfl rfl rfl rfl).1⟩

/-- C1 counterexample: a concrete run of the world-validation loop with
`max_world_retries = 2` (the source default) in which the validator never
finds the world coherent.  The generation stage `a2_world` and the validation
stage `v1_world_validator` execute 2 times each — not 3 — before the pipeline
fails: the counter is incremented to the attempt count before the
`world_retry_count < max_world_retries` comparison, so the loop permits `max`
observed attempts, not `max + 1`.  The surfaced report is the 2nd one
(`wrep 1`). -/
theorem c1_counterexample :
    (((runWorkflow
        (mkAgents (fun _ _ => ()) (fun i => ⟨false, ["issue " ++ toString i], []⟩)
          (fun _ => ⟨true, [], []⟩))
        50 ({ data := () } : GameState Unit)).trace.map Prod.fst).count .a2_world = 2) ∧
      (((runWorkflow
        (mkAgents (fun _ _ => ()) (fun i => ⟨false, ["issue " ++ toString i], []⟩)
          (fun _ => ⟨true, [], []⟩))
        50 ({ data := () } : GameState Unit)).trace.map Prod.fst).count .v1_world_validator = 2) ∧
      ((((runWorkflow
        (mkAgents (fun _ _ => ()) (fun i => ⟨false, ["issue " ++ toString i], []⟩)
          (fun _ => ⟨true, [], []⟩))
        50 ({ data := () } : GameState Unit)).trace.map Prod.fst).count .v1_world_validator = 3) →
        False) ∧
      ((runWorkflow
        (mkAgents (fun _ _ => ()) (fun i => ⟨false, ["issue " ++ toString i], []⟩)
          (fun _ => ⟨true, [], []⟩))
        50 ({ data := () } : GameState Unit)).outcome = .failed) ∧
      ((runWorkflow
        (mkAgents (fun _ _ => ()) (fun i => ⟨false, ["issue " ++ toString i], []⟩)
          (fun _ => ⟨true, [], []⟩))
        50 ({ data := () } : GameState Unit)).final.world_validation =
        some ⟨false, ["issue 1"], []⟩) := by
  decide

/-- C1 as amended: with `max_world_retries = 2` and a validator that never
finds the world coherent, the loop executes `a2_world` and
`v1_world_validator` exactly 2 times each (1 initial attempt plus 1 retry:
`max` observed attempts, not `max + 1`), then the pipeline terminates in FAIL
with the final counter at 2 and the 2nd (last) report — whose issues `cli.py`
prints — left in the state. -/
theorem c1_amended_world_loop_two_attempts {α : Type}
    (f : Node → GameState α → α) (wrep : Int → WorldValidation)
    (vrep : Int → ValidationReport) (s₀ : GameState α)
    (h0w : s₀.world_retry_count = 0) (hmax : s₀.max_world_retries = 2)
    (hw : ∀ i, (wrep i).is_coherent = false) :
    (runWorkflow (mkAgents f wrep vrep) DEFAULT_RECURSION_LIMIT s₀).trace.map Prod.fst =
      [.a1_config, .a2_world, .v1_world_validator, .a2_world, .v1_world_validator] ∧
    (runWorkflow (mkAgents f wrep vrep) DEFAULT_RECURSION_LIMIT s₀).outcome = .failed ∧
    (runWorkflow (mkAgents f wrep vrep) DEFAULT_RECURSION_LIMIT s₀).final.world_validation =
      some (wrep 1) ∧
    (runWorkflow (mkAgents f wrep vrep) DEFAULT_RECURSION_LIMIT s₀).final.world_retry_count = 2 := by
  simp [runWorkflow, DEFAULT_RECURSION_LIMIT, run, applyNode, nextNode, mkAgents,
    v1_world_validator_node, v2_game_logic_validator_node,
    should_retry_world_validation, should_retry_validation, h0w, hmax, hw]

/-- Witness for the amended C1 at a concrete never-coherent validator. -/
theorem c1_amended_world_loop_two_attempts_witness :
    (({ data := () } : GameState Unit).world_retry_count = 0 ∧
      ({ data := () } : GameState Unit).max_world_retries = 2 ∧
      ∀ i, ((fun _ => ⟨false, ["bad"], []⟩ : Int → WorldValidation) i).is_coherent = false) ∧
    (runWorkflow
        (mkAgents (fun _ _ => ()) (fun _ => ⟨false, ["bad"], []⟩) (fun _ => ⟨true, [], []⟩))
        DEFAULT_RECURSION_LIMIT ({ data := () } : GameState Unit)).trace.map Prod.fst =
      [.a1_config, .a2_world, .v1_world_validator, .a2_world, .v1_world_validator] :=
  ⟨⟨rfl, rfl, fun _ => rfl⟩,
    (c1_amended_world_loop_two_attempts (fun _ _ => ()) (fun _ => ⟨false, ["bad"], []⟩)
      (fun _ => ⟨true, [], []⟩) { data := () } rfl rfl (fun _ => rfl)).1⟩

/-- C2 counterexample: a concrete run of the game-logic loop with
`max_retries = 2` whose validator is inconsistent on attempts 1 and 2 and
would be consistent on attempt 3.  The loop executes its generation stages and
the validation stage 2 times each — never reaching the accepting 3rd attempt —
and the pipeline terminates in FAIL without ever visiting `a8_content`:
the counter is incremented to the attempt count before the
`retry_count < max_retries` comparison, so `max = 2` permits only 2 attempts. -/
theorem c2_counterexample :
    (((runWorkflow
        (mkAgents (fun _ _ => ()) (fun _ => ⟨true, [], []⟩)
          (fun i => if i < 2 then ⟨false, [⟨"logic_gap", "gap"⟩], []⟩ else ⟨true, [], []⟩))
        50 ({ data := (), max_retries := 2 } : GameState Unit)).trace.map Prod.fst).count .a6_timeline = 2) ∧
      (((runWorkflow
        (mkAgents (fun _ _ => ()) (fun _ => ⟨true, [], []⟩)
          (fun i => if i < 2 then ⟨false, [⟨"logic_gap", "gap"⟩], []⟩ else ⟨true, [], []⟩))
        50 ({ data := (), max_retries := 2 } : GameState Unit)).trace.map Prod.fst).count .v2_game_logic_validator = 2) ∧
      ((((runWorkflow
        (mkAgents (fun _ _ => ()) (fun _ => ⟨true, [], []⟩)
          (fun i => if i < 2 then ⟨false, [⟨"logic_gap", "gap"⟩], []⟩ else ⟨true, [], []⟩))
        50 ({ data := (), max_retries := 2 } : GameState Unit)).trace.map Prod.fst).count .v2_game_logic_validator = 3) → False) ∧
      ((runWorkflow
        (mkAgents (fun _ _ => ()) (fun _ => ⟨true, [], []⟩)
          (fun i => if i < 2 then ⟨false, [⟨"logic_gap", "gap"⟩], []⟩ else ⟨true, [], []⟩))
        50 ({ data := (), max_retries := 2 } : GameState Unit)).outcome = .failed) ∧
      (((runWorkflow
        (mkAgents (fun _ _ => ()) (fun _ => ⟨true, [], []⟩)
          (fun i => if i < 2 then ⟨false, [⟨"logic_gap", "gap"⟩], []⟩ else ⟨true, [], []⟩))
        50 ({ data := (), max_retries := 2 } : GameState Unit)).trace.map Prod.fst).count .a8_content = 0) := by
  decide

/-- C2 as amended: the described scenario — not-acceptable on attempts 1 and
2, acceptable on attempt 3, with the loop still advancing — plays out when
`max_retries = 3` (the source default): the loop re-runs its generation
stages (`a6_timeline`, `a7_killer`) 3 times, runs validation 3 times, the
retry counter is reset to 0 by the pass, and the pipeline advances to
`a8_content` and on to successful completion. -/
theorem c2_amended_three_attempts_with_max_three {α : Type}
    (f : Node → GameState α → α) (wrep : Int → WorldValidation)
    (vrep : Int → ValidationReport) (s₀ : GameState α)
    (h0 : s₀.retry_count = 0) (h0w : s₀.world_retry_count = 0)
    (hmax : s₀.max_retries = 3) (hw : (wrep 0).is_coherent = true)
    (hv0 : (vrep 0).is_consistent = false) (hv1 : (vrep 1).is_consistent = false)
    (hv2 : (vrep 2).is_consistent = true) :
    (runWorkflow (mkAgents f wrep vrep) DEFAULT_RECURSION_LIMIT s₀).trace.map Prod.fst =
      [.a1_config, .a2_world, .v1_world_validator, .a2_5_visual_style, .a3_characters,
        .a3_5_character_images, .a4_relationships, .a5_crime,
        .a6_timeline, .a7_killer, .v2_game_logic_validator,
        .a6_timeline, .a7_killer, .v2_game_logic_validator,
        .a6_timeline, .a7_killer, .v2_game_logic_validator,
        .a8_content, .a8_5_host_images, .a9_packaging] ∧
    (runWorkflow (mkAgents f wrep vrep) DEFAULT_RECURSION_LIMIT s₀).outcome = .success ∧
    (runWorkflow (mkAgents f wrep vrep) DEFAULT_RECURSION_LIMIT s₀).final.retry_count = 0 := by
  simp [runWorkflow, DEFAULT_RECURSION_LIMIT, run, applyNode, nextNode, mkAgents,
    v1_world_validator_node, v2_game_logic_validator_node,
    should_retry_world_validation, should_retry_validation,
    h0, h0w, hmax, hw, hv0, hv1, hv2]

/-- Witness for the amended C2 with a concrete fail-fail-pass validator. -/
theorem c2_amended_three_attempts_with_max_three_witness :
    (({ data := (), max_retries := 3 } : GameState Unit).retry_count = 0 ∧
      ({ data := (), max_retries := 3 } : GameState Unit).max_retries = 3 ∧
      ((fun i => if i < 2 then ⟨false, [], []⟩ else ⟨true, [], []⟩ :
        Int → ValidationReport) 0).is_consistent = false ∧
      ((fun i => if i < 2 then ⟨false, [], []⟩ else ⟨true, [], []⟩ :
        Int → ValidationReport) 2).is_consistent = true) ∧
    (runWorkflow
        (mkAgents (fun _ _ => ()) (fun _ => ⟨true, [], []⟩)
          (fun i => if i < 2 then ⟨false, [], []⟩ else ⟨true, [], []⟩))
        DEFAULT_RECURSION_LIMIT ({ data := (), max_retries := 3 } : GameState Unit)).outcome =
      .success :=
  ⟨⟨rfl, rfl, by decide, by decide⟩,
    (c2_amended_three_attempts_with_max_three (fun _ _ => ()) (fun _ => ⟨true, [], []⟩)
      (fun i => if i < 2 then ⟨false, [], []⟩ else ⟨true, [], []⟩)
      { data := (), max_retries := 3 } rfl rfl rfl rfl
      (by decide) (by decide) (by decide)).2.1⟩

/-- The node sequence of `m` consecutive iterations of the game-logic
validation loop: `retry` routes from `v2_game_logic_validator` back to
`a6_timeline`, so one iteration is `a6_timeline`, `a7_killer`,
`v2_game_logic_validator`. -/
def loopCycle : Nat → List Node
  | 0 => []
  | m + 1 => .a6_timeline :: .a7_killer :: .v2_game_logic_validator :: loopCycle m

theorem loopCycle_count_a6 (m : Nat) : (loopCycle m).count .a6_timeline = m := by
  induction m with
  | zero => simp [loopCycle]
  | succ m ih => simp [loopCycle, List.count_cons, ih]

theorem loopCycle_count_a7 (m : Nat) : (loopCycle m).count .a7_killer = m := by
  induction m with
  | zero => simp [loopCycle]
  | succ m ih => simp [loopCycle, List.count_cons, ih]

theorem loopCycle_count_v2 (m : Nat) : (loopCycle m).count .v2_game_logic_validator = m := by
  induction m with
  | zero => simp [loopCycle]
  | succ m ih => simp [loopCycle, List.count_cons, ih]

/-- One-step unfolding of `run` with symbolic fuel. -/
theorem run_succ_eq {α : Type} (agents : Node → GameState α → GameState α)
    (fuel : Nat) (n : Node) (s : GameState α) :
    run agents (fuel + 1) n s =
      match nextNode n (applyNode agents n s) with
      | none => ⟨[(n, applyNode agents n s)], applyNode agents n s,
          if n = .a9_packaging then .success else .failed⟩
      | some m =>
        ⟨(n, applyNode agents n s) :: (run agents fuel m (applyNode agents n s)).trace,
          (run agents fuel m (applyNode agents n s)).final,
          (run agents fuel m (applyNode agents n s)).outcome⟩ := by
  simp [run]

/-- Segment lemma for C6: entering the game-logic loop at `a6_timeline` with
`retry_count = k - d` (for `d ≤ k < max_retries`), a validator that is
inconsistent on every attempt index below `k` and consistent at `k` drives
exactly `d + 1` further loop iterations, then passes on to `a8_content`,
`a8_5_host_images` and `a9_packaging`; the counter never exceeds `k`, touches
`k` at some point, and ends at `0`. -/
theorem v2_loop_segment {α : Type} (f : Node → GameState α → α)
    (wrep : Int → WorldValidation) (vrep : Int → ValidationReport) (k : Nat)
    (hfail : ∀ i : Int, 0 ≤ i → i < (k : Int) → (vrep i).is_consistent = false)
    (hpass : (vrep (k : Int)).is_consistent = true) :
    ∀ (d : Nat) (s : GameState α), d ≤ k → s.retry_count = (k : Int) - (d : Int) →
      (k : Int) < s.max_retries →
      (run (mkAgents f wrep vrep) (3 * d + 6) .a6_timeline s).trace.map Prod.fst =
        loopCycle (d + 1) ++ [.a8_content, .a8_5_host_images, .a9_packaging] ∧
      (run (mkAgents f wrep vrep) (3 * d + 6) .a6_timeline s).outcome = .success ∧
      (run (mkAgents f wrep vrep) (3 * d + 6) .a6_timeline s).final.retry_count = 0 ∧
      (∃ p ∈ (run (mkAgents f wrep vrep) (3 * d + 6) .a6_timeline s).trace,
        p.2.retry_count = (k : Int)) ∧
      (∀ p ∈ (run (mkAgents f wrep vrep) (3 * d + 6) .a6_timeline s).trace,
        p.2.retry_count ≤ (k : Int)) := by
  intro d
  induction d with
  | zero =>
    intro s _ hrc hmax
    have hrc' : s.retry_count = (k : Int) := by omega
    simp [run, applyNode, nextNode, mkAgents, v2_game_logic_validator_node,
      should_retry_validation, loopCycle, hrc', hpass]
  | succ d ihd =>
    intro s hdk hrc hmax
    have hfuel : 3 * (d + 1) + 6 = 3 * d + 6 + 1 + 1 + 1 := by ring
    rw [hfuel, run_succ_eq]
    simp only [applyNode, mkAgents, nextNode]
    rw [run_succ_eq]
    simp only [applyNode, mkAgents, nextNode]
    rw [run_succ_eq]
    simp only [applyNode, mkAgents]
    -- the validator (attempt index k - (d+1)) is inconsistent and retries
    have hvfail : (vrep s.retry_count).is_consistent = false := by
      apply hfail <;> omega
    have hcmp : s.retry_count + 1 < s.max_retries := by omega
    simp only [v2_game_logic_validator_node, mkAgents, nextNode, should_retry_validation,
      hvfail, hcmp, Bool.false_eq_true, if_false, if_true, ite_true, ite_false]
    simp [hvfail, hcmp]
    have hrec := ihd { s with
        data := f .v2_game_logic_validator
          { s with data := f .a7_killer { s with data := f .a6_timeline s } },
        validation := some (vrep s.retry_count),
        retry_count := s.retry_count + 1 }
      (by omega) (by simp only [GameState.mk.injEq]; omega) (by simpa using hmax)
    refine ⟨?_, hrec.2.1, hrec.2.2.1, ?_, by omega, by omega, ?_⟩
    · rw [hrec.1]
      simp [loopCycle]
    · obtain ⟨p, hp, hpk⟩ := hrec.2.2.2.1
      exact Or.inr (Or.inr ⟨p.1, p.2, by simpa using hp, hpk⟩)
    · intro a b hb
      exact hrec.2.2.2.2 (a, b) hb

/-- C6: entering the game-logic validation loop with its counter at 0
(first entry), a validator that is not acceptable on exactly the first `k`
attempts (`k < max_retries`) and acceptable on attempt `k + 1` makes the
loop's generation stages (`a6_timeline`, `a7_killer`) and the validation
stage run exactly `k + 1` times each; the retry counter reaches `k`
transiently, never exceeds it, and is 0 after the eventual pass, after which
the run proceeds past the loop to successful completion. -/
theorem c6_counter_reaches_k_then_resets {α : Type} (f : Node → GameState α → α)
    (wrep : Int → WorldValidation) (vrep : Int → ValidationReport) (k : Nat)
    (s : GameState α) (h0 : s.retry_count = 0) (hmax : (k : Int) < s.max_retries)
    (hfail : ∀ i : Int, 0 ≤ i → i < (k : Int) → (vrep i).is_consistent = false)
    (hpass : (vrep (k : Int)).is_consistent = true) :
    (((run (mkAgents f wrep vrep) (3 * k + 6) .a6_timeline s).trace.map
        Prod.fst).count .a6_timeline = k + 1) ∧
    (((run (mkAgents f wrep vrep) (3 * k + 6) .a6_timeline s).trace.map
        Prod.fst).count .a7_killer = k + 1) ∧
    (((run (mkAgents f wrep vrep) (3 * k + 6) .a6_timeline s).trace.map
        Prod.fst).count .v2_game_logic_validator = k + 1) ∧
    (run (mkAgents f wrep vrep) (3 * k + 6) .a6_timeline s).outcome = .success ∧
    (run (mkAgents f wrep vrep) (3 * k + 6) .a6_timeline s).final.retry_count = 0 ∧
    (∃ p ∈ (run (mkAgents f wrep vrep) (3 * k + 6) .a6_timeline s).trace,
      p.2.retry_count = (k : Int)) ∧
    (∀ p ∈ (run (mkAgents f wrep vrep) (3 * k + 6) .a6_timeline s).trace,
      p.2.retry_count ≤ (k : Int)) := by
  obtain ⟨h1, h2, h3, h4, h5⟩ :=
    v2_loop_segment f wrep vrep k hfail hpass k s le_rfl (by omega) hmax
  refine ⟨?_, ?_, ?_, h2, h3, h4, h5⟩ <;>
    rw [h1] <;>
    simp [List.count_append, List.count_cons, loopCycle_count_a6, loopCycle_count_a7,
      loopCycle_count_v2]

/-- Witness for C6 at `k = 1` with a concrete fail-once-then-pass validator. -/
theorem c6_counter_reaches_k_then_resets_witness :
    (((1 : Nat) : Int) < ({ data := (), max_retries := 3 } : GameState Unit).max_retries ∧
      ((fun i => if i < 1 then ⟨false, [], []⟩ else ⟨true, [], []⟩ :
        Int → ValidationReport) ((1 : Nat) : Int)).is_consistent = true) ∧
    ((run
        (mkAgents (fun _ _ => ()) (fun _ => ⟨true, [], []⟩)
          (fun i => if i < 1 then ⟨false, [], []⟩ else ⟨true, [], []⟩))
        (3 * 1 + 6) .a6_timeline ({ data := (), max_retries := 3 } : GameState Unit)).trace.map
        Prod.fst).count .a6_timeline = 1 + 1 :=
  ⟨⟨by decide, by decide⟩,
    (c6_counter_reaches_k_then_resets (fun _ _ => ()) (fun _ => ⟨true, [], []⟩)
      (fun i => if i < 1 then ⟨false, [], []⟩ else ⟨true, [], []⟩) 1
      { data := (), max_retries := 3 } rfl (by decide)
      (by
        intro i h1 h2
        have h2' : i < 1 := by exact_mod_cast h2
        simp [h2'])
      (by decide)).1⟩

/-! ### Packaging stage (`agents/a9_packaging.py`, `utils/constants.py`,
`GameConfig` in `models/state.py`) -/

/-- A Python error relevant to the packaging stage. -/
inductive PyError
  | importError (name : String)
  | attributeError (attr : String)
deriving DecidableEq

/-- The names defined at module level in
`src/mystery_agents/utils/constants.py` (its complete top-level binding
list). -/
def constantsModuleNames : List String :=
  ["HOST_DIR", "PLAYERS_DIR", "CLUES_DIR",
   "HOST_GUIDE_FILENAME", "SOLUTION_FILENAME", "INVITATION_FILENAME",
   "CHARACTER_SHEET_FILENAME",
   "MARKDOWN_EXT", "TEXT_EXT", "PDF_EXT", "PNG_EXT", "JPG_EXT",
   "GAME_ID_LENGTH",
   "GAME_DIR_PREFIX", "PLAYER_DIR_PREFIX", "CLUE_FILE_PREFIX", "ZIP_FILE_PREFIX",
   "DEFAULT_RECURSION_LIMIT", "DEFAULT_OUTPUT_DIR",
   "MAX_TIMELINE_EVENTS_DISPLAY", "MIN_CLUES_PER_GAME",
   "GAME_TONE_DESCRIPTION", "GAME_TONE_SHORT", "GAME_TONE_STYLE",
   "LLM_MODEL_TIER1", "LLM_MODEL_TIER2", "LLM_MODEL_TIER3",
   "LLM_TEMPERATURE_TIER1", "LLM_TEMPERATURE_TIER2", "LLM_TEMPERATURE_TIER3",
   "DRY_RUN_DUMMY_API_KEY",
   "IMAGE_GENERATION_MODEL", "IMAGE_GENERATION_TEMPERATURE",
   "IMAGE_GENERATION_MAX_RETRIES", "IMAGE_GENERATION_RETRY_DELAY_BASE",
   "IMAGE_GENERATION_MAX_CONCURRENT",
   "MOCK_WORLD_NAME", "MOCK_VICTIM_NAME", "MOCK_DETECTIVE_NAME",
   "MOCK_MURDER_TIME", "MOCK_WAIT_TIME",
   "TEST_DEFAULT_PLAYERS", "TEST_MIN_PLAYERS", "TEST_DEFAULT_DURATION",
   "TEST_MIN_DURATION"]

/-- The names `a9_packaging.py` (lines 13-28) imports
`from mystery_agents.utils.constants`. -/
def a9ImportsFromConstants : List String :=
  ["CHARACTER_SHEET_FILENAME", "CLUE_FILE_PREFIX", "CLUES_DIR",
   "DEFAULT_OUTPUT_DIR", "GAME_DIR_PREFIX", "GAME_ID_LENGTH", "HOST_DIR",
   "HOST_GUIDE_FILENAME", "INVITATION_FILENAME", "PLAYER_DIR_PREFIX",
   "PLAYERS_DIR", "README_FILENAME", "SOLUTION_FILENAME", "ZIP_FILE_PREFIX"]

/-- The field names of `GameConfig` (state.py lines 36-54). -/
def gameConfigFields : List String :=
  ["language", "country", "region", "epoch", "custom_epoch_description",
   "theme", "custom_theme_description", "players", "host_gender",
   "duration_minutes", "difficulty", "generate_images", "dry_run",
   "debug_model", "config_file", "keep_work_dir"]

/-- Python `from M import a, b, ...`: the first requested name not bound at
module scope raises `ImportError` naming it. -/
def importNamesFrom (defined requested : List String) : Except PyError Unit :=
  match requested.find? (fun n => !(defined.contains n)) with
  | some n => .error (.importError n)
  | none => .ok ()

/-- Python attribute access `state.config.<name>`: pydantic models raise
`AttributeError` when `name` is not one of the model's fields. -/
def configAttrAccess (name : String) : Except PyError Unit :=
  if gameConfigFields.contains name then .ok () else .error (.attributeError name)

/-- The packaging stage (`a9_packaging_node` calling `PackagingAgent.run`) as
observable through its two name-resolution obligations, in program order:
resolving the module-level `from ... import` list of `a9_packaging`
against the constants module (workflow.py imports the module inside the node
function, before the class can be used), and the `index_summary` f-string of
`PackagingAgent.run` (line 360) reads `state.config.tone`.  The file I/O in
between is elided: both name resolutions are independent of the input state,
so they decide for every state whether the stage can complete. -/
def a9PackagingRun {α : Type} (s : GameState α) : Except PyError (GameState α) := do
  let _ ← importNamesFrom constantsModuleNames a9ImportsFromConstants
  let _ ← configAttrAccess "tone"
  pure s

/-- C4: `README_FILENAME` is not defined by the constants module and `tone`
is not a `GameConfig` field, so the packaging stage raises for every input
state — the module import itself already fails with `ImportError` on
`README_FILENAME`, and the index-summary attribute access would fail in any
case. -/
theorem c4_packaging_never_succeeds {α : Type} :
    constantsModuleNames.contains "README_FILENAME" = false ∧
    gameConfigFields.contains "tone" = false ∧
    configAttrAccess "tone" = .error (.attributeError "tone") ∧
    ∀ s : GameState α, a9PackagingRun s = .error (.importError "README_FILENAME") :=
  ⟨by decide, by decide, rfl, fun _ => rfl⟩

/-! ### Character image generation (`agents/a3_5_character_images.py`) -/

/-- `CharacterImageAgent.MAX_CONCURRENT_REQUESTS` (line 33). -/
def MAX_CONCURRENT_REQUESTS : Nat := 5

/-- `CharacterImageAgent.MAX_RETRIES` (line 34). -/
def MAX_RETRIES : Nat := 3

/-- `CharacterImageAgent.RETRY_DELAY_BASE` (line 35), 2.0 seconds, as an
exact rational. -/
def RETRY_DELAY_BASE : ℚ := 2

/-- Observable result of `_generate_character_image` for one character: the
character's `image_path` slot after the call, the backoff sleeps performed
(in order), and the number of API attempts made. -/
structure ImageAttemptResult where
  image_path : Option String
  delays : List ℚ
  attempts : Nat
deriving DecidableEq

/-- The retry loop of `CharacterImageAgent._generate_character_image`
(lines 172-202), with the API call abstracted as
`work : Nat → Except String Unit` (attempt index to success or raised error —
the `except Exception` arm catches every exception, so `work`'s outcome is
always consumed, never re-raised).  `for attempt in range(maxRetries)`: on
success set `image_path` to the target path and return; on failure sleep
`base * 2 ** attempt` if another attempt remains (`attempt < maxRetries - 1`),
else set `image_path = None`.  `prior` is the slot's value before the call;
it survives only when the loop body never runs (`maxRetries = 0`). -/
def imageRetryLoop (work : Nat → Except String Unit) (path : String) (base : ℚ)
    (maxRetries : Nat) (attempt : Nat) (prior : Option String) : ImageAttemptResult :=
  if attempt < maxRetries then
    match work attempt with
    | .ok _ => { image_path := some path, delays := [], attempts := 1 }
    | .error _ =>
      if attempt < maxRetries - 1 then
        let rest := imageRetryLoop work path base maxRetries (attempt + 1) prior
        { image_path := rest.image_path, delays := base * 2 ^ attempt :: rest.delays,
          attempts := rest.attempts + 1 }
      else { image_path := none, delays := [], attempts := 1 }
  else { image_path := prior, delays := [], attempts := 0 }
termination_by maxRetries - attempt
decreasing_by omega

/-- `_generate_character_image`: the retry loop entered at attempt 0. -/
def generateCharacterImage (work : Nat → Except String Unit) (path : String)
    (base : ℚ) (maxRetries : Nat) (prior : Option String) : ImageAttemptResult :=
  imageRetryLoop work path base maxRetries 0 prior

/-- C7 counterexample: with `MAX_RETRIES = 3` and an always-failing unit of
work, the item's result is absent after exactly 3 attempts, but only TWO
backoff waits occur — `base` and `2 × base` — because no wait follows the
final attempt.  The claimed third wait of `4 × base` never happens: the delay
list has length 2, not 3. -/
theorem c7_counterexample :
    ((generateCharacterImage (fun _ => .error "rate limited") "img.png"
        RETRY_DELAY_BASE MAX_RETRIES none).attempts = 3) ∧
      ((generateCharacterImage (fun _ => .error "rate limited") "img.png"
        RETRY_DELAY_BASE MAX_RETRIES none).image_path = none) ∧
      ((generateCharacterImage (fun _ => .error "rate limited") "img.png"
        RETRY_DELAY_BASE MAX_RETRIES none).delays =
        [RETRY_DELAY_BASE, 2 * RETRY_DELAY_BASE]) ∧
      (((generateCharacterImage (fun _ => .error "rate limited") "img.png"
        RETRY_DELAY_BASE MAX_RETRIES none).delays.length = 3) → False) := by
  refine ⟨?_, ?_, ?_, ?_⟩ <;>
    simp [generateCharacterImage, imageRetryLoop, RETRY_DELAY_BASE, MAX_RETRIES]

/-- C7 as amended: for `max retries = 3` and a unit of work failing on every
attempt, the result is absent after exactly 3 attempts, and the waits between
attempts are `base × 2^attempt` for the non-final failed attempts only, i.e.
the two delays `base` and `2 × base`; no `4 × base` wait occurs because the
loop performs no sleep after its final attempt. -/
theorem c7_amended_two_delays_three_attempts (base : ℚ) (path : String)
    (prior : Option String) (work : Nat → Except String Unit) (errOf : Nat → String)
    (hfail : ∀ n, work n = Except.error (errOf n)) :
    generateCharacterImage work path base MAX_RETRIES prior =
      { image_path := none, delays := [base, base * 2], attempts := 3 } := by
  simp [generateCharacterImage, imageRetryLoop, MAX_RETRIES, hfail]

/-- Witness for the amended C7 at a concrete always-failing unit of work. -/
theorem c7_amended_two_delays_three_attempts_witness :
    (∀ n : Nat, (fun _ : Nat => (Except.error "boom" : Except String Unit)) n =
      Except.error ((fun _ : Nat => "boom") n)) ∧
    generateCharacterImage (fun _ => .error "boom") "img.png" RETRY_DELAY_BASE
        MAX_RETRIES none =
      { image_path := none, delays := [RETRY_DELAY_BASE, RETRY_DELAY_BASE * 2],
        attempts := 3 } :=
  ⟨fun _ => rfl,
    c7_amended_two_delays_three_attempts RETRY_DELAY_BASE "img.png" none
      (fun _ => .error "boom") (fun _ => "boom") (fun _ => rfl)⟩

/-- One work item of the image batch: the character's id, the target image
path, and the `image_path` slot value before the batch. -/
structure WorkItem where
  id : String
  path : String
  prior : Option String
deriving DecidableEq

/-- `CharacterImageAgent._generate_all_images` (lines 118-136) as observed
through the per-character result slots: `asyncio.gather` runs one task per
character and each task writes only its own character's `image_path`
(`_generate_character_image` receives its own `character`), so the slot each
item ends with is exactly its own retry computation's result, independent of
scheduling.  The semaphore side of `gather` is modelled separately by
`SemStep`/`SemReachable`. -/
def generateAllImages (base : ℚ) (maxRetries : Nat)
    (items : List (WorkItem × (Nat → Except String Unit))) : List (Option String) :=
  items.map
    (fun it => (generateCharacterImage it.2 it.1.path base maxRetries it.1.prior).image_path)

/-- C8: in any batch, an item whose unit of work fails on every attempt ends
with its result slot absent (`image_path = None`) — the retry loop returns
normally instead of raising — and every other item's slot is exactly its own
computation's result, unaffected by the exhausted item. -/
theorem c8_exhausted_item_absent_siblings_unaffected (base : ℚ)
    (items : List (WorkItem × (Nat → Except String Unit))) (i : Nat)
    (itI : WorkItem × (Nat → Except String Unit)) (errOf : Nat → String)
    (hget : items.get? i = some itI)
    (hfail : ∀ n, itI.2 n = Except.error (errOf n)) :
    (generateAllImages base MAX_RETRIES items).get? i = some none ∧
    ∀ j : Nat, j ≠ i →
      (generateAllImages base MAX_RETRIES items).get? j =
        (items.get? j).map
          (fun it =>
            (generateCharacterImage it.2 it.1.path base MAX_RETRIES it.1.prior).image_path) := by
  constructor
  · simp only [generateAllImages, List.get?_map, hget, Option.map_some]
    simp [generateCharacterImage, imageRetryLoop, MAX_RETRIES, hfail]
  · intro j _
    simp [generateAllImages, List.get?_map]

/-- Witness for C8: a two-item batch whose second item always fails; its slot
is `none` while the first item's slot is its own successful result. -/
theorem c8_exhausted_item_absent_siblings_unaffected_witness :
    ([(⟨"char-1", "p1.png", none⟩, fun _ => Except.ok ()),
      (⟨"char-2", "p2.png", none⟩, fun _ => Except.error "quota")] :
        List (WorkItem × (Nat → Except String Unit))).get? 1 =
      some (⟨"char-2", "p2.png", none⟩, fun _ => Except.error "quota") ∧
    ((generateAllImages RETRY_DELAY_BASE MAX_RETRIES
        [(⟨"char-1", "p1.png", none⟩, fun _ => Except.ok ()),
         (⟨"char-2", "p2.png", none⟩, fun _ => Except.error "quota")]).get? 1 = some none ∧
      ∀ j : Nat, j ≠ 1 →
        (generateAllImages RETRY_DELAY_BASE MAX_RETRIES
          [(⟨"char-1", "p1.png", none⟩, fun _ => Except.ok ()),
           (⟨"char-2", "p2.png", none⟩, fun _ => Except.error "quota")]).get? j =
          (([(⟨"char-1", "p1.png", none⟩, fun _ => Except.ok ()),
             (⟨"char-2", "p2.png", none⟩, fun _ => Except.error "quota")] :
              List (WorkItem × (Nat → Except String Unit))).get? j).map
            (fun it =>
              (generateCharacterImage it.2 it.1.path RETRY_DELAY_BASE MAX_RETRIES
                it.1.prior).image_path)) :=
  ⟨rfl,
    c8_exhausted_item_absent_siblings_unaffected RETRY_DELAY_BASE
      [(⟨"char-1", "p1.png", none⟩, fun _ => Except.ok ()),
       (⟨"char-2", "p2.png", none⟩, fun _ => Except.error "quota")] 1
      (⟨"char-2", "p2.png", none⟩, fun _ => Except.error "quota")
      (fun _ => "quota") rfl (fun _ => rfl)⟩

/-! ### Semaphore-bounded concurrency
(`_generate_all_images` / `_generate_character_image_with_semaphore`)

`_generate_all_images` creates `asyncio.Semaphore(MAX_CONCURRENT_REQUESTS)`
and one task per character; each task executes
`async with semaphore: await self._generate_character_image(...)`.  The
interleaving model below: each task is `waitingSem` until it acquires the
semaphore, `holdingSem` for the whole guarded region (the unit of work,
including its backoff sleeps), and `done` after releasing.  The event loop
may fire steps in any order; an acquire can only fire while the number of
holders is below the capacity. -/

/-- Phase of one batch task with respect to the semaphore. -/
inductive TaskPhase
  | waitingSem
  | holdingSem
  | done
deriving DecidableEq

/-- Number of tasks currently inside the semaphore-guarded region — the
"in progress" tasks. -/
def countHolding (ps : List TaskPhase) : Nat := ps.count .holdingSem

/-- One scheduler step of the batch: some waiting task acquires the semaphore
(possible only while fewer than `cap` tasks hold it — the semantics of
`asyncio.Semaphore(cap)`), or some holding task finishes its guarded region
and releases. -/
inductive SemStep (cap : Nat) : List TaskPhase → List TaskPhase → Prop
  | acquire (l r : List TaskPhase)
      (h : countHolding (l ++ .waitingSem :: r) < cap) :
      SemStep cap (l ++ .waitingSem :: r) (l ++ .holdingSem :: r)
  | release (l r : List TaskPhase) :
      SemStep cap (l ++ .holdingSem :: r) (l ++ .done :: r)

/-- States of the batch reachable from an initial state by scheduler steps. -/
inductive SemReachable (cap : Nat) (init : List TaskPhase) : List TaskPhase → Prop
  | refl : SemReachable cap init init
  | tail {s t : List TaskPhase} :
      SemReachable cap init s → SemStep cap s t → SemReachable cap init t

/-- C9: for any batch of `N` work items under concurrency cap `cap`, no
reachable instant has more than `cap` items inside the semaphore-guarded
unit-of-work region, regardless of `N`. -/
theorem c9_at_most_cap_in_progress (cap N : Nat) (s : List TaskPhase)
    (h : SemReachable cap (List.replicate N .waitingSem) s) :
    countHolding s ≤ cap := by
  induction h with
  | refl => simp [countHolding, List.count_replicate]
  | tail hreach hstep ih =>
    cases hstep with
    | acquire l r hlt =>
      simp [countHolding, List.count_append, List.count_cons] at hlt ih ⊢
      omega
    | release l r =>
      simp [countHolding, List.count_append, List.count_cons] at ih ⊢
      omega

/-- Witness for C9: under the source's cap `MAX_CONCURRENT_REQUESTS`, a batch
of 3 tasks reaches a state with one holder, and the bound holds there. -/
theorem c9_at_most_cap_in_progress_witness :
    SemReachable MAX_CONCURRENT_REQUESTS (List.replicate 3 .waitingSem)
      [.holdingSem, .waitingSem, .waitingSem] ∧
    countHolding [.holdingSem, .waitingSem, .waitingSem] ≤ MAX_CONCURRENT_REQUESTS := by
  have hreach : SemReachable MAX_CONCURRENT_REQUESTS (List.replicate 3 .waitingSem)
      [.holdingSem, .waitingSem, .waitingSem] :=
    SemReachable.tail SemReachable.refl
      (SemStep.acquire [] [.waitingSem, .waitingSem] (by decide))
  exact ⟨hreach, c9_at_most_cap_in_progress MAX_CONCURRENT_REQUESTS 3 _ hreach⟩

end MysteryAgents
